import Mathlib

/-!
Verification of the subtitle conversion core of `egui-video`
(`src/subtitle/mod.rs`).

The Rust module converts ffmpeg subtitle rects into a render-ready
`Subtitle` value.  We embed the data model and the three conversion
paths (`from_text`, `from_bitmap`, `from_ffmpeg_rect`) shallowly:

* `egui` value types (`Color32`, `Align2`, `Margin`, `Pos2`) are
  modelled as plain structures holding the channel/field values the
  module actually uses; `Color32::from_rgba_unmultiplied(r,g,b,a)`
  is modelled as the straight-alpha quadruple `(r,g,b,a)`.
* The unsafe pointer reads in `from_bitmap` read raw process memory,
  so the index plane (`data[0]`, bytes) and the palette (`data[1]`,
  32-bit words) are modelled as total functions from an integer
  offset to the stored value; a byte read is taken `% 256` and a
  `u32` read `% 2^32`, mirroring the machine widths.  `linesize[0]`
  is an `i32`, modelled as `Int`.
* `width`/`height` (`u32`) and `x`/`y` (`usize`) are modelled as
  `Nat`; the product `width * height` used for the output length is
  modelled without wrap-around.
* The countdown/timestamp fields (`i64`) are modelled as `Int`; no
  arithmetic is performed on them, so no wrap is needed.  The only
  `f32` in the module, `font_size`, only ever holds the exact
  literal `30.`, so it is modelled as `Nat`.
* `parse_ass_subtitle` lives in `src/subtitle/ass.rs`, an external
  collaborator of this module; the dispatcher is therefore
  parameterised over it as an opaque `String → Except String Subtitle`
  (`anyhow::Result` with the error reduced to its message string,
  which is all `anyhow::bail!` carries here).
-/

/-- Model of `egui::Color32` as produced by this module: the module only
builds colors via `Color32::from_rgba_unmultiplied` and the constants
`BLACK` and `WHITE`, so a color is recorded as its four 8-bit channels. -/
structure Color32 where
  r : Nat
  g : Nat
  b : Nat
  a : Nat
deriving DecidableEq, Repr

def Color32.from_rgba_unmultiplied (r g b a : Nat) : Color32 :=
  ⟨r, g, b, a⟩

def Color32.BLACK : Color32 := ⟨0, 0, 0, 255⟩

def Color32.WHITE : Color32 := ⟨255, 255, 255, 255⟩

/-- Model of `egui::Align`. -/
inductive Align where
  | Min
  | Center
  | Max
deriving DecidableEq, Repr

/-- Model of `egui::Align2` (horizontal × vertical anchor). -/
structure Align2 where
  horizontal : Align
  vertical : Align
deriving DecidableEq, Repr

def Align2.CENTER_CENTER : Align2 := ⟨Align.Center, Align.Center⟩

/-- Model of `egui::Margin` (four-sided inset). -/
structure Margin where
  left : Int
  right : Int
  top : Int
  bottom : Int
deriving DecidableEq, Repr

def Margin.same (v : Int) : Margin := ⟨v, v, v, v⟩

/-- Model of `egui::Pos2`; this module never constructs one (the
`position` field stays `none`), so the coordinates are left abstract
as integers. -/
structure Pos2 where
  x : Int
  y : Int
deriving DecidableEq, Repr

/-- Model of `egui::TextureHandle`: an opaque render-layer resource,
identified abstractly.  The module never creates one. -/
structure TextureHandle where
  id : Nat
deriving DecidableEq, Repr

/-- Model of `FadeEffect` from `src/subtitle/mod.rs`. -/
structure FadeEffect where
  _fade_in_ms : Int
  _fade_out_ms : Int
deriving DecidableEq, Repr

/-- Model of `SubtitleBitmap` from `src/subtitle/mod.rs`. -/
structure SubtitleBitmap where
  data : List Color32
  x : Nat
  y : Nat
  w : Nat
  h : Nat
  tex_handle : Option TextureHandle
deriving DecidableEq, Repr

/-- `#[derive(Default)]` on `SubtitleBitmap`: empty pixel data, zero
offsets and dimensions, no texture handle. -/
def SubtitleBitmap.default : SubtitleBitmap :=
  { data := [], x := 0, y := 0, w := 0, h := 0, tex_handle := none }

/-- Model of `Subtitle` from `src/subtitle/mod.rs`. -/
structure Subtitle where
  text : String
  fade : FadeEffect
  alignment : Align2
  primary_fill : Color32
  position : Option Pos2
  font_size : Nat
  margin : Margin
  remaining_duration_ms : Int
  presentation_time_ms : Option Int
  showing : Bool
  bitmap : SubtitleBitmap
deriving Repr

/-- The `Default` impl for `Subtitle`. -/
def Subtitle.default : Subtitle :=
  { text := ""
    fade := { _fade_in_ms := 0, _fade_out_ms := 0 }
    remaining_duration_ms := 0
    font_size := 30
    margin := Margin.same 85
    alignment := Align2.CENTER_CENTER
    primary_fill := Color32.WHITE
    position := none
    presentation_time_ms := none
    showing := false
    bitmap := SubtitleBitmap.default }

def Subtitle.with_text (s : Subtitle) (text : String) : Subtitle :=
  { s with text := text }

def Subtitle.with_duration_ms (s : Subtitle) (duration_ms : Int) : Subtitle :=
  { s with remaining_duration_ms := duration_ms }

def Subtitle.with_presentation_time_ms (s : Subtitle) (pts : Int) : Subtitle :=
  { s with presentation_time_ms := some pts }

def Subtitle.from_text (text : String) : Subtitle :=
  Subtitle.default.with_text text

/-- Model of `ffmpeg::subtitle::Bitmap`: the accessors `x()`, `y()`,
`width()`, `height()` together with the raw `AVSubtitleRect` fields the
unsafe block reads — `data[0]` (the index plane, one byte per entry),
`data[1]` (the palette, one packed 32-bit color per entry) and
`linesize[0]` (the index-plane row stride, an `i32`).  The pointers
address raw memory, so both planes are total functions of the integer
offset; reads are truncated to the machine width at the read site. -/
structure FfmpegBitmap where
  x : Nat
  y : Nat
  w : Nat
  h : Nat
  indexPlane : Int → Nat
  linesize : Int
  palette : Int → Nat

/-- The color written for pixel `(y, x)` by the inner loop of
`Subtitle::from_bitmap`: read the index byte at `data[0] + y*linesize[0] + x`,
use it as a word offset into `data[1]`, and unpack the 32-bit entry with
red in bits 16–23, green in bits 8–15, blue in bits 0–7 and alpha in
bits 24–31, emitted straight-alpha. -/
def FfmpegBitmap.pixelAt (bmp : FfmpegBitmap) (y x : Nat) : Color32 :=
  let color_id_x : Nat := bmp.indexPlane ((y : Int) * bmp.linesize + (x : Int)) % 256
  let color : Nat := bmp.palette (color_id_x : Int) % 2 ^ 32
  Color32.from_rgba_unmultiplied
    (color >>> 16 &&& 0xFF) (color >>> 8 &&& 0xFF)
    (color >>> 0 &&& 0xFF) (color >>> 24 &&& 0xFF)

/-- One pass of the inner `for x in 0..width` loop: starting at column
`x` and output position `i`, write the next `k` pixels of row `y` into
`acc` at consecutive positions (`subtitle.bitmap.data[i] = …; i += 1`). -/
def FfmpegBitmap.writeCols (bmp : FfmpegBitmap) (y : Nat) :
    Nat → Nat → Nat → List Color32 → List Color32
  | 0, _, _, acc => acc
  | k + 1, x, i, acc =>
      FfmpegBitmap.writeCols bmp y k (x + 1) (i + 1) (acc.set i (bmp.pixelAt y x))

/-- The outer `for y in 0..height` loop: process the next `k` rows
starting at row `y`, with the running output position `i`. -/
def FfmpegBitmap.writeRows (bmp : FfmpegBitmap) :
    Nat → Nat → Nat → List Color32 → List Color32
  | 0, _, _, acc => acc
  | k + 1, y, i, acc =>
      FfmpegBitmap.writeRows bmp k (y + 1) (i + bmp.w)
        (FfmpegBitmap.writeCols bmp y bmp.w 0 i acc)

/-- Model of `Subtitle::from_bitmap`: start from the default subtitle,
copy `x`/`y`/`width`/`height` into the bitmap, resize the pixel vector
to `width * height` filled with `Color32::BLACK`, then run the decode
loops. -/
def Subtitle.from_bitmap (bmp : FfmpegBitmap) : Subtitle :=
  { Subtitle.default with
    bitmap :=
      { SubtitleBitmap.default with
        x := bmp.x
        y := bmp.y
        w := bmp.w
        h := bmp.h
        data :=
          FfmpegBitmap.writeRows bmp bmp.h 0 0
            (List.replicate (bmp.w * bmp.h) Color32.BLACK) } }

/-- Write the elements of `l` into `acc` at consecutive positions
starting at `i`: the sequential `data[i] = …; i += 1` pattern of the
decode loop, abstracted for reasoning. -/
def listSetSeq (acc : List Color32) (i : Nat) : List Color32 → List Color32
  | [] => acc
  | c :: rest => listSetSeq (acc.set i c) (i + 1) rest

/-- Model of `ffmpeg::subtitle::Rect`: the closed set of four subtitle
rect variants matched by the dispatcher. -/
inductive Rect where
  | Ass (raw : String)
  | Bitmap (bitmap : FfmpegBitmap)
  | None (u : Unit)
  | Text (raw : String)

/-- Model of `Subtitle::from_ffmpeg_rect`.  `parse_ass_subtitle` is the
external markup collaborator from `src/subtitle/ass.rs` (outside this
module), passed in as an opaque function; errors are `anyhow` errors
reduced to their message string, and the `None` arm is
`anyhow::bail!("no subtitle")`. -/
def Subtitle.from_ffmpeg_rect (parse_ass_subtitle : String → Except String Subtitle)
    (rect : Rect) : Except String Subtitle :=
  match rect with
  | Rect.Ass ass => parse_ass_subtitle ass
  | Rect.Bitmap bitmap => Except.ok (Subtitle.from_bitmap bitmap)
  | Rect.None _ => Except.error "no subtitle"
  | Rect.Text text => Except.ok (Subtitle.from_text text)

/-! ### Concrete example inputs -/

/-- Example bitmap for the pixel-correctness property: 2×1, all index
bytes zero, every palette word `0x80102030`. -/
def bmpC1 : FfmpegBitmap :=
  { x := 3, y := 4, w := 2, h := 1,
    indexPlane := fun _ => 0, linesize := 2, palette := fun _ => 0x80102030 }

/-- Example bitmap with zero width, for the empty-output property. -/
def bmpC2 : FfmpegBitmap :=
  { x := 0, y := 0, w := 0, h := 3,
    indexPlane := fun _ => 0, linesize := 0, palette := fun _ => 0 }

/-- Example bitmap for the uniform-output property: 2×1, all index
bytes zero, every palette word `0x80102030` (`AA=80, RR=10, GG=20,
BB=30`). -/
def bmpC3 : FfmpegBitmap :=
  { x := 0, y := 0, w := 2, h := 1,
    indexPlane := fun _ => 0, linesize := 2, palette := fun _ => 0x80102030 }

/-- Invalid input for the bounds-checking property: a 1×1 bitmap whose
single index byte is `5` while the palette holds only the four entries
`0..3`; memory beyond the palette's end holds `0`. -/
def bmpC4a : FfmpegBitmap :=
  { x := 0, y := 0, w := 1, h := 1,
    indexPlane := fun _ => 5, linesize := 1,
    palette := fun off => if off < 4 then 0xFF000000 else 0 }

/-- The same invalid input as `bmpC4a`, with the same four palette
entries `0..3`, but different memory contents past the palette's end. -/
def bmpC4b : FfmpegBitmap :=
  { x := 0, y := 0, w := 1, h := 1,
    indexPlane := fun _ => 5, linesize := 1,
    palette := fun off => if off < 4 then 0xFF000000 else 0xFFFFFFFF }

/-- Example bitmap for padding independence: 1×2 with stride 2, so the
byte at offset 1 of each row is padding; here that padding byte is 7. -/
def bmpC10a : FfmpegBitmap :=
  { x := 0, y := 0, w := 1, h := 2,
    indexPlane := fun off => if off = 1 then 7 else 0, linesize := 2,
    palette := fun _ => 0x11223344 }

/-- Like `bmpC10a` but with zeroed padding bytes; the first byte of
each row and the whole palette are unchanged. -/
def bmpC10b : FfmpegBitmap :=
  { x := 0, y := 0, w := 1, h := 2,
    indexPlane := fun _ => 0, linesize := 2,
    palette := fun _ => 0x11223344 }

/-! ### Characterisation of the decode loops -/

lemma take_succ_set (acc : List Color32) (i : Nat) (c : Color32) (hi : i < acc.length) :
    (acc.set i c).take (i + 1) = acc.take i ++ [c] := by
  rw [List.set_eq_take_cons_drop c hi, List.take_append_eq_append_take]
  have h1 : (acc.take i).length = i := by simp; omega
  rw [List.take_of_length_le (by omega), h1]
  simp

lemma listSetSeq_eq_append (l : List Color32) : ∀ (acc : List Color32) (i : Nat),
    i + l.length = acc.length → listSetSeq acc i l = acc.take i ++ l := by
  induction l with
  | nil =>
    intro acc i h
    simp only [List.length_nil, Nat.add_zero] at h
    simp [listSetSeq, List.take_of_length_le (Nat.le_of_eq h.symm)]
  | cons c rest ih =>
    intro acc i h
    simp only [List.length_cons] at h
    have hi : i < acc.length := by omega
    rw [listSetSeq, ih (acc.set i c) (i + 1) (by simp; omega), take_succ_set acc i c hi]
    simp

lemma listSetSeq_full (l acc : List Color32) (h : l.length = acc.length) :
    listSetSeq acc 0 l = l := by
  have h0 := listSetSeq_eq_append l acc 0 (by omega)
  simpa using h0

lemma listSetSeq_append (l₁ l₂ : List Color32) : ∀ (acc : List Color32) (i : Nat),
    listSetSeq acc i (l₁ ++ l₂) = listSetSeq (listSetSeq acc i l₁) (i + l₁.length) l₂ := by
  induction l₁ with
  | nil => intro acc i; simp [listSetSeq]
  | cons c rest ih =>
    intro acc i
    rw [List.cons_append, listSetSeq, listSetSeq, ih]
    congr 1
    simp
    omega

lemma writeCols_eq (bmp : FfmpegBitmap) (y : Nat) : ∀ (k x i : Nat) (acc : List Color32),
    bmp.writeCols y k x i acc =
      listSetSeq acc i ((List.range k).map fun j => bmp.pixelAt y (x + j)) := by
  intro k
  induction k with
  | zero => intro x i acc; simp [FfmpegBitmap.writeCols, listSetSeq]
  | succ k ih =>
    intro x i acc
    rw [FfmpegBitmap.writeCols, ih, List.range_succ_eq_map, List.map_cons, List.map_map]
    rw [listSetSeq]
    simp only [Nat.add_zero]
    congr 1
    apply List.map_congr_left
    intro j _
    simp only [Function.comp_apply]
    congr 1
    omega

lemma writeRows_eq (bmp : FfmpegBitmap) : ∀ (k y i : Nat) (acc : List Color32),
    bmp.writeRows k y i acc =
      listSetSeq acc i ((List.range k).flatMap fun r =>
        (List.range bmp.w).map fun j => bmp.pixelAt (y + r) j) := by
  intro k
  induction k with
  | zero => intro y i acc; simp [FfmpegBitmap.writeRows, listSetSeq]
  | succ k ih =>
    intro y i acc
    rw [FfmpegBitmap.writeRows, ih, writeCols_eq, List.range_succ_eq_map, List.flatMap_cons,
      List.flatMap_map, listSetSeq_append]
    simp only [Nat.add_zero, Nat.zero_add, List.length_map, List.length_range]
    congr 1
    apply List.flatMap_congr
    intro r _
    apply List.map_congr_left
    intro j _
    rw [show y + 1 + r = y + r.succ from by omega]

lemma flatMap_range_row_length (w : Nat) (f : Nat → Nat → Color32) (h : Nat) :
    ((List.range h).flatMap fun r => (List.range w).map fun c => f r c).length = h * w := by
  induction h with
  | zero => simp
  | succ h ih =>
    rw [List.range_succ, List.flatMap_append]
    simp [ih, Nat.succ_mul]

lemma flatMap_range_row_getElem (w : Nat) (f : Nat → Nat → Color32) :
    ∀ (h y x : Nat), y < h → x < w →
      ((List.range h).flatMap fun r => (List.range w).map fun c => f r c)[y * w + x]? =
        some (f y x) := by
  intro h
  induction h with
  | zero => intro y x hy _; exact absurd hy (Nat.not_lt_zero y)
  | succ h ih =>
    intro y x hy hx
    rw [List.range_succ, List.flatMap_append]
    by_cases hyh : y < h
    · rw [List.getElem?_append_left]
      · exact ih y x hyh hx
      · rw [flatMap_range_row_length]
        have h1 : (y + 1) * w ≤ h * w := Nat.mul_le_mul_right w (by omega)
        have h2 : (y + 1) * w = y * w + w := by rw [Nat.succ_mul]
        omega
    · have hy' : y = h := by omega
      subst hy'
      rw [List.getElem?_append_right]
      · rw [flatMap_range_row_length, Nat.add_sub_cancel_left]
        simp [List.getElem?_map, List.getElem?_range hx]
      · rw [flatMap_range_row_length]
        omega

/-- The pixel vector produced by `Subtitle::from_bitmap` is the
row-major sequence of decoded pixels. -/
lemma from_bitmap_data_eq (bmp : FfmpegBitmap) :
    (Subtitle.from_bitmap bmp).bitmap.data =
      (List.range bmp.h).flatMap fun y =>
        (List.range bmp.w).map fun x => bmp.pixelAt y x := by
  show FfmpegBitmap.writeRows bmp bmp.h 0 0 (List.replicate (bmp.w * bmp.h) Color32.BLACK) = _
  rw [writeRows_eq]
  have hz : ∀ r, 0 + r = r := fun r => Nat.zero_add r
  simp only [hz]
  apply listSetSeq_full
  rw [flatMap_range_row_length, List.length_replicate, Nat.mul_comm]

lemma from_bitmap_data_length (bmp : FfmpegBitmap) :
    (Subtitle.from_bitmap bmp).bitmap.data.length = bmp.w * bmp.h := by
  rw [from_bitmap_data_eq, flatMap_range_row_length, Nat.mul_comm]

lemma from_bitmap_data_getElem (bmp : FfmpegBitmap) {y x : Nat}
    (hy : y < bmp.h) (hx : x < bmp.w) :
    (Subtitle.from_bitmap bmp).bitmap.data[y * bmp.w + x]? = some (bmp.pixelAt y x) := by
  rw [from_bitmap_data_eq]
  exact flatMap_range_row_getElem bmp.w _ bmp.h y x hy hx

lemma flatMap_const_replicate (w : Nat) (c : Color32) : ∀ h : Nat,
    ((List.range h).flatMap fun _ => List.replicate w c) = List.replicate (h * w) c := by
  intro h
  induction h with
  | zero => simp
  | succ h ih =>
    rw [List.range_succ, List.flatMap_append, ih, Nat.succ_mul, List.replicate_add]
    simp

/-! ### Claim theorems -/

/-- C1: for every width > 0, height > 0, index stride ≥ width (with the
index plane and palette read from total memory, so coverage is
automatic), the pixel at row-major position `y * width + x` of
`Subtitle::from_bitmap`'s output equals the palette entry selected by
the index byte at offset `y * stride + x` of the index plane, unpacked
as straight-alpha RGBA with red from bits 16–23, green from bits 8–15,
blue from bits 0–7 and alpha from bits 24–31 of the 32-bit entry. -/
theorem from_bitmap_pixel_correct (bmp : FfmpegBitmap) (y x : Nat)
    (_hw : 0 < bmp.w) (_hh : 0 < bmp.h) (_hs : (bmp.w : Int) ≤ bmp.linesize)
    (hy : y < bmp.h) (hx : x < bmp.w) :
    (Subtitle.from_bitmap bmp).bitmap.data[y * bmp.w + x]? =
      some (Color32.from_rgba_unmultiplied
        ((bmp.palette ((bmp.indexPlane ((y : Int) * bmp.linesize + (x : Int)) % 256 : Nat) : Int)
          % 2 ^ 32) >>> 16 &&& 0xFF)
        ((bmp.palette ((bmp.indexPlane ((y : Int) * bmp.linesize + (x : Int)) % 256 : Nat) : Int)
          % 2 ^ 32) >>> 8 &&& 0xFF)
        ((bmp.palette ((bmp.indexPlane ((y : Int) * bmp.linesize + (x : Int)) % 256 : Nat) : Int)
          % 2 ^ 32) &&& 0xFF)
        ((bmp.palette ((bmp.indexPlane ((y : Int) * bmp.linesize + (x : Int)) % 256 : Nat) : Int)
          % 2 ^ 32) >>> 24 &&& 0xFF)) := by
  rw [from_bitmap_data_getElem bmp hy hx]
  rfl

/-- Witness for C1: on the concrete 2×1 bitmap `bmpC1` whose palette
entry is `0x80102030`, the pixel at position `0 * 2 + 1` decodes to
straight-alpha RGBA(16, 32, 48, 128). -/
theorem from_bitmap_pixel_correct_witness :
    0 < bmpC1.w ∧ 0 < bmpC1.h ∧ (bmpC1.w : Int) ≤ bmpC1.linesize ∧
    (Subtitle.from_bitmap bmpC1).bitmap.data[0 * bmpC1.w + 1]? =
      some (Color32.from_rgba_unmultiplied 16 32 48 128) :=
  ⟨by decide, by decide, by decide,
    (from_bitmap_pixel_correct bmpC1 0 1 (by decide) (by decide) (by decide)
      (by decide) (by decide)).trans (by rfl)⟩

/-- C2: the pixel array produced by `Subtitle::from_bitmap` always has
length `width * height`; in particular it is empty when `width` or
`height` is 0. -/
theorem from_bitmap_length_eq (bmp : FfmpegBitmap) :
    (Subtitle.from_bitmap bmp).bitmap.data.length = bmp.w * bmp.h ∧
      ((bmp.w = 0 ∨ bmp.h = 0) → (Subtitle.from_bitmap bmp).bitmap.data = []) := by
  refine ⟨from_bitmap_data_length bmp, fun h0 => ?_⟩
  have hlen : (Subtitle.from_bitmap bmp).bitmap.data.length = 0 := by
    rw [from_bitmap_data_length]
    rcases h0 with h | h <;> simp [h]
  exact List.eq_nil_of_length_eq_zero hlen

/-- Witness for C2: the zero-width bitmap `bmpC2` decodes to the empty
pixel array. -/
theorem from_bitmap_length_eq_witness :
    (bmpC2.w = 0 ∨ bmpC2.h = 0) ∧ (Subtitle.from_bitmap bmpC2).bitmap.data = [] :=
  ⟨Or.inl rfl, (from_bitmap_length_eq bmpC2).2 (Or.inl rfl)⟩

/-- C3: if every index byte read for the bitmap equals a single value
`i` and palette entry `i` is the 32-bit word `c` (`0xAARRGGBB`), then
the decoded output is a uniform array in which every pixel is the
straight-alpha RGBA(RR, GG, BB, AA) unpacked from `c`. -/
theorem from_bitmap_uniform_palette (bmp : FfmpegBitmap) (i c : Nat)
    (_hw : 0 < bmp.w) (_hh : 0 < bmp.h)
    (hidx : ∀ y x : Nat, y < bmp.h → x < bmp.w →
      bmp.indexPlane ((y : Int) * bmp.linesize + (x : Int)) % 256 = i)
    (hpal : bmp.palette (i : Int) % 2 ^ 32 = c) :
    (Subtitle.from_bitmap bmp).bitmap.data =
      List.replicate (bmp.w * bmp.h)
        (Color32.from_rgba_unmultiplied (c >>> 16 &&& 0xFF) (c >>> 8 &&& 0xFF)
          (c &&& 0xFF) (c >>> 24 &&& 0xFF)) := by
  rw [from_bitmap_data_eq]
  have hrow : ∀ y ∈ List.range bmp.h,
      ((List.range bmp.w).map fun x => bmp.pixelAt y x) =
        List.replicate bmp.w
          (Color32.from_rgba_unmultiplied (c >>> 16 &&& 0xFF) (c >>> 8 &&& 0xFF)
            (c &&& 0xFF) (c >>> 24 &&& 0xFF)) := by
    intro y hy
    rw [List.eq_replicate_iff]
    refine ⟨by simp, ?_⟩
    intro b hb
    rcases List.mem_map.mp hb with ⟨x, hx, rfl⟩
    have hy' : y < bmp.h := List.mem_range.mp hy
    have hx' : x < bmp.w := List.mem_range.mp hx
    show bmp.pixelAt y x = _
    simp only [FfmpegBitmap.pixelAt]
    rw [hidx y x hy' hx', hpal]
    rfl
  rw [List.flatMap_congr hrow, flatMap_const_replicate, Nat.mul_comm]

/-- Witness for C3: the concrete case of the claim — index plane all
zeros, palette entry 0 equal to `0x80102030`, width 2, height 1 —
decodes to exactly two copies of straight-alpha RGBA(16, 32, 48, 128). -/
theorem from_bitmap_uniform_palette_witness :
    0 < bmpC3.w ∧ 0 < bmpC3.h ∧
    (Subtitle.from_bitmap bmpC3).bitmap.data =
      [Color32.from_rgba_unmultiplied 16 32 48 128,
       Color32.from_rgba_unmultiplied 16 32 48 128] :=
  ⟨by decide, by decide,
    (from_bitmap_uniform_palette bmpC3 0 0x80102030 (by decide) (by decide)
      (fun _ _ _ _ => rfl) (by decide)).trans (by decide)⟩

/-- C4 (code evidence): `Subtitle::from_bitmap` performs no bounds
check and has no error channel.  `bmpC4a` and `bmpC4b` are the same
invalid 1×1 input — index byte 5 against a palette whose only entries
are 0..3 — and agree on all four palette entries, differing only in the
memory beyond the palette's end; the conversion succeeds on both (the
dispatcher returns `Ok`, never a decode error) and the decoded pixel
data differs, i.e. the out-of-range index byte causes a read past the
palette instead of a reported `BitmapDecodeError`. -/
theorem from_bitmap_unchecked_palette_read :
    bmpC4a.palette 0 = bmpC4b.palette 0 ∧ bmpC4a.palette 1 = bmpC4b.palette 1 ∧
    bmpC4a.palette 2 = bmpC4b.palette 2 ∧ bmpC4a.palette 3 = bmpC4b.palette 3 ∧
    bmpC4a.indexPlane = bmpC4b.indexPlane ∧
    bmpC4a.w = bmpC4b.w ∧ bmpC4a.h = bmpC4b.h ∧ bmpC4a.linesize = bmpC4b.linesize ∧
    Subtitle.from_ffmpeg_rect (fun _ => Except.error "e") (Rect.Bitmap bmpC4a) =
      Except.ok (Subtitle.from_bitmap bmpC4a) ∧
    Subtitle.from_ffmpeg_rect (fun _ => Except.error "e") (Rect.Bitmap bmpC4b) =
      Except.ok (Subtitle.from_bitmap bmpC4b) ∧
    (Subtitle.from_bitmap bmpC4a).bitmap.data ≠ (Subtitle.from_bitmap bmpC4b).bitmap.data :=
  ⟨by decide, by decide, by decide, by decide, rfl, rfl, rfl, rfl, rfl, rfl, by decide⟩

/-- C5 (counterexample to "a distinguishable, typed error category"):
the Empty arm fails via `anyhow::bail!("no subtitle")`, a generic
message-carrying error, not a dedicated typed variant.  A markup
collaborator failure carrying the same message is indistinguishable
from the Empty failure: the dispatcher returns the very same error
value for an Ass rect and for the Empty rect, so no classification of
the returned error can tell the `NoSubtitleContent` case apart. -/
theorem empty_rect_error_uncategorized :
    Subtitle.from_ffmpeg_rect (fun _ => Except.error "no subtitle") (Rect.Ass "x") =
      Subtitle.from_ffmpeg_rect (fun _ => Except.error "no subtitle") (Rect.None ()) :=
  rfl

/-- C5 (amended): dispatching an Empty rect always fails, with the
fixed error message "no subtitle" — distinguishable only by its
message string, not by a dedicated error type. -/
theorem empty_rect_fails_no_subtitle (parse_ass_subtitle : String → Except String Subtitle)
    (u : Unit) :
    Subtitle.from_ffmpeg_rect parse_ass_subtitle (Rect.None u) =
      Except.error "no subtitle" :=
  rfl

/-- C6: dispatching a plain-text rect carrying `s` succeeds with a cue
whose text is `s`, whose bitmap is empty, and whose every other field
holds its default value: font_size 30, fill opaque white, alignment
center/center, margin 85 on all sides, fade (0,0), duration 0, no
position, no presentation time, not showing. -/
theorem dispatch_text_defaults (parse_ass_subtitle : String → Except String Subtitle)
    (s : String) :
    ∃ cue, Subtitle.from_ffmpeg_rect parse_ass_subtitle (Rect.Text s) = Except.ok cue ∧
      cue.text = s ∧ cue.bitmap.data = [] ∧ cue.font_size = 30 ∧
      cue.primary_fill = ⟨255, 255, 255, 255⟩ ∧
      cue.alignment = ⟨Align.Center, Align.Center⟩ ∧
      cue.margin = ⟨85, 85, 85, 85⟩ ∧ cue.fade = ⟨0, 0⟩ ∧
      cue.remaining_duration_ms = 0 ∧ cue.position = none ∧
      cue.presentation_time_ms = none ∧ cue.showing = false :=
  ⟨Subtitle.from_text s, rfl, rfl, rfl, rfl, rfl, rfl, rfl, rfl, rfl, rfl, rfl, rfl⟩

/-- C7: each fluent method sets exactly its one target field, leaving
every other field at its prior value (expressed as a single-field
structure update) and cannot fail (each is a total function); chaining
the three on the default cue yields exactly those three fields set and
everything else at its default. -/
theorem with_methods_single_field (c : Subtitle) (t : String) (d pts : Int) :
    c.with_text t = { c with text := t } ∧
    c.with_duration_ms d = { c with remaining_duration_ms := d } ∧
    c.with_presentation_time_ms pts = { c with presentation_time_ms := some pts } ∧
    ((Subtitle.default.with_text "x").with_duration_ms 1000).with_presentation_time_ms 500 =
      { Subtitle.default with
        text := "x", remaining_duration_ms := 1000, presentation_time_ms := some 500 } :=
  ⟨rfl, rfl, rfl, rfl⟩

/-- C8: dispatching a paletted-bitmap rect succeeds with a cue whose
bitmap carries the rect's x, y, width and height unchanged and a
decoded pixel buffer of length `width * height`, whose every non-bitmap
field holds its default value, and with no texture handle attached. -/
theorem dispatch_bitmap_fields (parse_ass_subtitle : String → Except String Subtitle)
    (bmp : FfmpegBitmap) :
    ∃ cue, Subtitle.from_ffmpeg_rect parse_ass_subtitle (Rect.Bitmap bmp) = Except.ok cue ∧
      cue.bitmap.x = bmp.x ∧ cue.bitmap.y = bmp.y ∧
      cue.bitmap.w = bmp.w ∧ cue.bitmap.h = bmp.h ∧
      cue.bitmap.data.length = bmp.w * bmp.h ∧
      cue.text = "" ∧ cue.fade = ⟨0, 0⟩ ∧
      cue.alignment = ⟨Align.Center, Align.Center⟩ ∧
      cue.primary_fill = ⟨255, 255, 255, 255⟩ ∧ cue.position = none ∧
      cue.font_size = 30 ∧ cue.margin = ⟨85, 85, 85, 85⟩ ∧
      cue.remaining_duration_ms = 0 ∧ cue.presentation_time_ms = none ∧
      cue.showing = false ∧ cue.bitmap.tex_handle = none :=
  ⟨Subtitle.from_bitmap bmp, rfl, rfl, rfl, rfl, rfl, from_bitmap_data_length bmp,
    rfl, rfl, rfl, rfl, rfl, rfl, rfl, rfl, rfl, rfl, rfl⟩

/-- C9 (counterexample to "never neither"): dispatching a plain-text
rect carrying the empty string succeeds, and the resulting cue has
empty text and an empty bitmap — neither payload is populated. -/
theorem dispatch_empty_text_neither_payload :
    Subtitle.from_ffmpeg_rect (fun _ => Except.error "e") (Rect.Text "") =
      Except.ok (Subtitle.from_text "") ∧
    (Subtitle.from_text "").text = "" ∧ (Subtitle.from_text "").bitmap.data = [] :=
  ⟨rfl, rfl, rfl⟩

/-- C9 (amended): for every rect on which the dispatcher succeeds —
assuming the markup collaborator only produces cues with empty bitmaps,
per its §4.4 contract — the resulting cue never has both non-empty text
and a non-empty bitmap; a cue may however have neither (empty-string
text rects, zero-area bitmaps). -/
theorem dispatch_at_most_one_payload (parse_ass_subtitle : String → Except String Subtitle)
    (rect : Rect) (cue : Subtitle)
    (hp : ∀ s c, parse_ass_subtitle s = Except.ok c → c.bitmap.data = [])
    (hok : Subtitle.from_ffmpeg_rect parse_ass_subtitle rect = Except.ok cue) :
    ¬(cue.text ≠ "" ∧ cue.bitmap.data ≠ []) := by
  rintro ⟨htext, hbmp⟩
  cases rect with
  | Ass raw => exact hbmp (hp raw cue hok)
  | Bitmap bmp =>
      simp only [Subtitle.from_ffmpeg_rect, Except.ok.injEq] at hok
      subst hok
      exact htext rfl
  | None u => simp only [Subtitle.from_ffmpeg_rect] at hok; exact Except.noConfusion hok
  | Text s =>
      simp only [Subtitle.from_ffmpeg_rect, Except.ok.injEq] at hok
      subst hok
      exact hbmp rfl

/-- Witness for C9 (amended): a successful plain-text dispatch under a
collaborator that never succeeds satisfies the at-most-one-payload
conclusion. -/
theorem dispatch_at_most_one_payload_witness :
    Subtitle.from_ffmpeg_rect (fun _ => Except.error "e") (Rect.Text "hello") =
      Except.ok (Subtitle.from_text "hello") ∧
    ¬((Subtitle.from_text "hello").text ≠ "" ∧
      (Subtitle.from_text "hello").bitmap.data ≠ []) :=
  ⟨rfl,
    dispatch_at_most_one_payload (fun _ => Except.error "e") (Rect.Text "hello")
      (Subtitle.from_text "hello") (fun _ _ h => Except.noConfusion h) rfl⟩

/-- C10: the decoder's output depends only on the index bytes at row
offsets `[0, width)` and on the palette entries they select — two
inputs of equal dimensions and stride that agree on those reads produce
identical pixel arrays, whatever the padding bytes at row offsets
`[width, stride)` or the rest of memory hold. -/
theorem from_bitmap_padding_independent (b1 b2 : FfmpegBitmap)
    (hw : b1.w = b2.w) (hh : b1.h = b2.h) (hls : b1.linesize = b2.linesize)
    (hidx : ∀ y x : Nat, y < b1.h → x < b1.w →
      b1.indexPlane ((y : Int) * b1.linesize + (x : Int)) =
        b2.indexPlane ((y : Int) * b1.linesize + (x : Int)))
    (hpal : ∀ y x : Nat, y < b1.h → x < b1.w →
      b1.palette ((b1.indexPlane ((y : Int) * b1.linesize + (x : Int)) % 256 : Nat) : Int) =
        b2.palette ((b1.indexPlane ((y : Int) * b1.linesize + (x : Int)) % 256 : Nat) : Int)) :
    (Subtitle.from_bitmap b1).bitmap.data = (Subtitle.from_bitmap b2).bitmap.data := by
  rw [from_bitmap_data_eq, from_bitmap_data_eq, ← hw, ← hh]
  apply List.flatMap_congr
  intro y hy
  apply List.map_congr_left
  intro x hx
  have hy' : y < b1.h := List.mem_range.mp hy
  have hx' : x < b1.w := List.mem_range.mp hx
  simp only [FfmpegBitmap.pixelAt]
  rw [← hls, ← hidx y x hy' hx', ← hpal y x hy' hx']

/-- Witness for C10: `bmpC10a` and `bmpC10b` differ in the padding byte
at row offset 1 (stride 2, width 1) yet decode to identical pixel
arrays. -/
theorem from_bitmap_padding_independent_witness :
    bmpC10a.w = bmpC10b.w ∧ bmpC10a.h = bmpC10b.h ∧
    bmpC10a.linesize = bmpC10b.linesize ∧
    bmpC10a.indexPlane 1 ≠ bmpC10b.indexPlane 1 ∧
    (Subtitle.from_bitmap bmpC10a).bitmap.data = (Subtitle.from_bitmap bmpC10b).bitmap.data :=
  ⟨rfl, rfl, rfl, by decide,
    from_bitmap_padding_independent bmpC10a bmpC10b rfl rfl rfl
      (fun y x hy hx => by
        have hx1 : x < 1 := hx
        have hy2 : y < 2 := hy
        have hx0 : x = 0 := by omega
        subst hx0
        have hy01 : y = 0 ∨ y = 1 := by omega
        rcases hy01 with h | h <;> subst h <;> decide)
      (fun y x _ _ => rfl)⟩
